import Mathlib

/-!
Shallow embedding of the debouncing state machine from `src/debouncer.rs`
of the `derico` repository.

The Rust code is generic over a state type `T : PartialEq + Copy` and a
counter type `S` (an unsigned integer in all uses).  We embed `T` as an
arbitrary Lean type with decidable equality and `S` as `Nat`; the only
operations the source uses on `S` are `one`, `+`, `==` and `<=`/`<`,
all of which agree with `Nat` on the unsigned ranges exercised here
(the counter is capped at `threshold`, so no overflow occurs for any
counter width able to hold `threshold`).
-/

namespace Derico

/-- Embeds `Edge<T>` (src/debouncer.rs lines 3-13).  The Rust fields
`from` and `to` are Lean keywords, hence the names `from_` and `to_`. -/
structure Edge (T : Type) where
  from_ : T
  to_ : T
deriving DecidableEq, Repr

/-- Embeds `Edge::new` (src/debouncer.rs lines 10-12). -/
def Edge.new {T : Type} (from_ : T) (to_ : T) : Edge T :=
  { from_ := from_, to_ := to_ }

/-- Embeds `Debouncer<T, S>` (src/debouncer.rs lines 15-21), with the
counter type `S` embedded as `Nat`. -/
structure Debouncer (T : Type) where
  current_state : T
  next_state : T
  repetition_count : Nat
  threshold : Nat
deriving DecidableEq, Repr

namespace Debouncer

variable {T : Type} [DecidableEq T]

/-- Embeds `Debouncer::new` (src/debouncer.rs lines 28-35); the spelling
`inital_state` follows the source. -/
def new (threshold : Nat) (inital_state : T) : Debouncer T :=
  { current_state := inital_state
    next_state := inital_state
    repetition_count := threshold
    threshold := threshold }

/-- Embeds `Debouncer::update` (src/debouncer.rs lines 37-75).  The Rust
method mutates `self` and returns `Option<Edge<T>>`; here the new state is
returned alongside the output.  Each branch writes all three mutable
fields exactly as the source does (including the redundant
self-assignments), and the final `else` arm (lines 71-74) returns `none`
with the state untouched. -/
def update (d : Debouncer T) (state : T) : Debouncer T × Option (Edge T) :=
  if d.current_state = state then
    ({ current_state := d.current_state
       next_state := state
       repetition_count := d.repetition_count
       threshold := d.threshold }, none)
  else if d.current_state ≠ state ∧ d.next_state ≠ state then
    ({ current_state := d.current_state
       next_state := state
       repetition_count := 1
       threshold := d.threshold }, none)
  else if d.current_state ≠ state ∧ d.next_state = state ∧
      d.repetition_count + 1 < d.threshold then
    ({ current_state := d.current_state
       next_state := state
       repetition_count := d.repetition_count + 1
       threshold := d.threshold }, none)
  else if d.current_state ≠ state ∧ d.next_state = state ∧
      d.repetition_count + 1 ≥ d.threshold then
    ({ current_state := state
       next_state := state
       repetition_count := d.threshold
       threshold := d.threshold },
     some (Edge.new d.current_state d.next_state))
  else
    (d, none)

/-- Embeds `Debouncer::is_state` (src/debouncer.rs lines 77-79). -/
def is_state (d : Debouncer T) (state : T) : Bool :=
  decide (d.current_state = d.next_state) && decide (d.current_state = state)

/-- State reached after feeding the same sample `s` to the machine `n`
times in a row (discarding the per-call outputs). -/
def feed (d : Debouncer T) (s : T) : Nat → Debouncer T
  | 0 => d
  | n + 1 => (update (feed d s n) s).1

/-- State reached after feeding a list of samples in order. -/
def runUpdates (d : Debouncer T) : List T → Debouncer T
  | [] => d
  | s :: rest => runUpdates (update d s).1 rest

/-- Outputs of the successive `update` calls on a list of samples. -/
def runOutputs (d : Debouncer T) : List T → List (Option (Edge T))
  | [] => []
  | s :: rest => (update d s).2 :: runOutputs (update d s).1 rest

/-! ### Branch-level case lemmas for `update` -/

/-- First branch (lines 38-43): the sample equals the stable value.  Note
that `next_state` is overwritten with the sample. -/
lemma update_case1 (c n : T) (r h : Nat) :
    update { current_state := c, next_state := n,
             repetition_count := r, threshold := h } c =
      ({ current_state := c, next_state := c,
         repetition_count := r, threshold := h }, none) := by
  simp [update]

/-- Second branch (lines 44-49): a sample differing from both the stable
value and the tracked candidate restarts the counter at 1. -/
lemma update_case2 (c n s : T) (r h : Nat) (hc : c ≠ s) (hn : n ≠ s) :
    update { current_state := c, next_state := n,
             repetition_count := r, threshold := h } s =
      ({ current_state := c, next_state := s,
         repetition_count := 1, threshold := h }, none) := by
  simp [update, hc, hn]

/-- Third branch (lines 50-58): the candidate is reinforced below the
threshold; the counter increments. -/
lemma update_case3 (c s : T) (r h : Nat) (hc : c ≠ s) (hr : r + 1 < h) :
    update { current_state := c, next_state := s,
             repetition_count := r, threshold := h } s =
      ({ current_state := c, next_state := s,
         repetition_count := r + 1, threshold := h }, none) := by
  simp [update, hc, hr]

/-- Fourth branch (lines 59-70): the candidate reaches the threshold; an
edge is emitted and the machine settles on the sample with the counter
pinned at `threshold`. -/
lemma update_case4 (c s : T) (r h : Nat) (hc : c ≠ s) (hr : h ≤ r + 1) :
    update { current_state := c, next_state := s,
             repetition_count := r, threshold := h } s =
      ({ current_state := s, next_state := s,
         repetition_count := h, threshold := h },
       some (Edge.new c s)) := by
  simp [update, hc, Nat.not_lt.mpr hr, hr]

/-- Feeding the tracked candidate `s` repeatedly while below the
threshold advances the counter one step per call. -/
lemma feed_streak (c s : T) (r h : Nat) (hc : c ≠ s) :
    ∀ j, r + j < h →
      feed { current_state := c, next_state := s,
             repetition_count := r, threshold := h } s j =
        { current_state := c, next_state := s,
          repetition_count := r + j, threshold := h } := by
  intro j
  induction j with
  | zero => intro _; simp [feed]
  | succ j ih =>
    intro hj
    have hj' : r + j < h := Nat.lt_of_succ_lt (by omega)
    have hstep : r + j + 1 < h := by omega
    simp only [feed, ih hj']
    rw [update_case3 c s (r + j) h hc hstep]
    rfl

/-- Feeding `m + n` samples is feeding `m` and then `n` more. -/
lemma feed_add (d : Debouncer T) (s : T) (m n : Nat) :
    feed d s (m + n) = feed (feed d s m) s n := by
  induction n with
  | zero => rfl
  | succ n ih =>
    rw [Nat.add_succ]
    simp only [feed, ih]

/-- From a machine whose stable value and tracked candidate are both `a`
(any counter value), feeding `b ≠ a` for `1 ≤ k < h` calls leaves the
machine tracking `b` with the counter at `k`. -/
lemma feed_from_settled (a b : T) (r0 h : Nat) (hb : a ≠ b) :
    ∀ k, 1 ≤ k → k < h →
      feed { current_state := a, next_state := a,
             repetition_count := r0, threshold := h } b k =
        { current_state := a, next_state := b,
          repetition_count := k, threshold := h } := by
  intro k hk1 hkh
  obtain ⟨j, rfl⟩ : ∃ j, k = 1 + j := ⟨k - 1, by omega⟩
  have hfeed1 :
      feed { current_state := a, next_state := a,
             repetition_count := r0, threshold := h } b 1 =
        { current_state := a, next_state := b,
          repetition_count := 1, threshold := h } := by
    simp only [feed]
    rw [update_case2 a a b r0 h hb hb]
  rw [feed_add, hfeed1, feed_streak a b 1 h hb j (by omega)]

/-- A machine settled on `v` is a fixed point of `update v`: the first
branch rewrites `next_state` to the sample, which already equals it. -/
lemma update_settled_fix (d : Debouncer T) (v : T) (h : is_state d v = true) :
    update d v = (d, none) := by
  obtain ⟨c, n, r, th⟩ := d
  simp only [is_state, Bool.and_eq_true, decide_eq_true_eq] at h
  obtain ⟨h1, h2⟩ := h
  subst h1
  subst h2
  exact update_case1 c c r th

/-- Iterating the sample a machine is settled on leaves it unchanged. -/
lemma feed_settled_fix (d : Debouncer T) (v : T) (h : is_state d v = true) :
    ∀ n, feed d v n = d := by
  intro n
  induction n with
  | zero => rfl
  | succ n ih => simp only [feed, ih, update_settled_fix d v h]

/-- Characterisation of the emitting case: `update` returns `some` only
through the fourth branch, whose guard and writes are recovered here. -/
lemma update_eq_some (d : Debouncer T) (s : T) (e : Edge T)
    (h : (update d s).2 = some e) :
    d.current_state ≠ s ∧ d.next_state = s ∧ d.threshold ≤ d.repetition_count + 1 ∧
    update d s = ({ current_state := s, next_state := s,
                    repetition_count := d.threshold, threshold := d.threshold },
                  some (Edge.new d.current_state d.next_state)) := by
  by_cases h1 : d.current_state = s
  · simp [update, h1] at h
  · by_cases h2 : d.next_state = s
    · by_cases h3 : d.repetition_count + 1 < d.threshold
      · simp [update, h1, h2, h3] at h
      · have h4 : d.threshold ≤ d.repetition_count + 1 := Nat.le_of_not_lt h3
        refine ⟨h1, h2, h4, ?_⟩
        simp [update, h1, h2, h3, h4]
    · simp [update, h1, h2] at h

/-- `update` never changes the `threshold` field. -/
lemma update_threshold_eq (d : Debouncer T) (s : T) :
    ((update d s).1).threshold = d.threshold := by
  unfold update
  repeat' split
  all_goals rfl

/-- Single-step preservation of the counter cap, assuming a positive
threshold (the second branch writes a raw `1` into the counter). -/
lemma update_cap (d : Debouncer T) (s : T) (h1 : 1 ≤ d.threshold)
    (h2 : d.repetition_count ≤ d.threshold) :
    ((update d s).1).repetition_count ≤ ((update d s).1).threshold := by
  unfold update
  repeat' split
  all_goals simp_all
  all_goals omega

/-- The counter cap holds along any run, for a positive threshold. -/
lemma runUpdates_cap :
    ∀ (l : List T) (d : Debouncer T), 1 ≤ d.threshold →
      d.repetition_count ≤ d.threshold →
      (runUpdates d l).repetition_count ≤ (runUpdates d l).threshold := by
  intro l
  induction l with
  | nil => intro d _ h2; exact h2
  | cons s rest ih =>
    intro d h1 h2
    simp only [runUpdates]
    exact ih (update d s).1 (by rw [update_threshold_eq]; exact h1)
      (update_cap d s h1 h2)

end Debouncer

open Debouncer

variable {T : Type} [DecidableEq T]

/-! ### Claim theorems -/

/-- C1 (counterexample): with threshold `H = 1` the claim fails.  A
machine settled at `0`, on its first `update 1` call, takes the second
branch (the candidate `next_state` still equals the stable value), so the
`H`-th consecutive divergent sample returns `none`, not the claimed edge. -/
theorem C1_counterexample :
    (update (Debouncer.new 1 (0 : Nat)) 1).2 ≠ some (Edge.new 0 1) := by
  decide

/-- C1 (amended to `H ≥ 2`): for a machine settled at `A` with threshold
`H ≥ 2` and a sample `B ≠ A`, each of the first `H - 1` consecutive
`update B` calls (call number `k + 1` for `k < H - 1`) returns `none`,
the `H`-th consecutive call returns exactly `Edge.new A B`, and
immediately afterwards `is_state B` holds. -/
theorem C1_monotonic_confirmation (d : Debouncer T) (A B : T) (H k : Nat)
    (hd : d = { current_state := A, next_state := A,
                repetition_count := H, threshold := H })
    (hH : 2 ≤ H) (hne : B ≠ A) (hk : k < H - 1) :
    (update (feed d B k) B).2 = none ∧
    (update (feed d B (H - 1)) B).2 = some (Edge.new A B) ∧
    is_state (feed d B H) B = true := by
  subst hd
  have hab : A ≠ B := fun e => hne e.symm
  have hlast :
      update (feed { current_state := A, next_state := A,
                     repetition_count := H, threshold := H } B (H - 1)) B =
        ({ current_state := B, next_state := B,
           repetition_count := H, threshold := H }, some (Edge.new A B)) := by
    rw [feed_from_settled A B H H hab (H - 1) (by omega) (by omega)]
    rw [update_case4 A B (H - 1) H hab (by omega)]
  refine ⟨?_, ?_, ?_⟩
  · match k, hk with
    | 0, _ =>
      simp only [feed]
      rw [update_case2 A A B H H hab hab]
    | j + 1, hk =>
      rw [feed_from_settled A B H H hab (j + 1) (by omega) (by omega)]
      rw [update_case3 A B (j + 1) H hab (by omega)]
  · rw [hlast]
  · have hHsplit : H = (H - 1) + 1 := by omega
    have hfinal :
        feed { current_state := A, next_state := A,
               repetition_count := H, threshold := H } B H =
          { current_state := B, next_state := B,
            repetition_count := H, threshold := H } := by
      calc feed { current_state := A, next_state := A,
                  repetition_count := H, threshold := H } B H
          = feed { current_state := A, next_state := A,
                   repetition_count := H, threshold := H } B ((H - 1) + 1) := by
            rw [← hHsplit]
        _ = (update (feed { current_state := A, next_state := A,
                            repetition_count := H, threshold := H } B (H - 1)) B).1 := by
            simp only [feed]
        _ = { current_state := B, next_state := B,
              repetition_count := H, threshold := H } := by
            rw [hlast]
    rw [hfinal]
    simp [is_state]

/-- C1 (witness). -/
theorem C1_witness :
    (update (feed (Debouncer.new 3 (0 : Nat)) 1 1) 1).2 = none ∧
    (update (feed (Debouncer.new 3 (0 : Nat)) 1 (3 - 1)) 1).2 = some (Edge.new 0 1) ∧
    is_state (feed (Debouncer.new 3 (0 : Nat)) 1 3) 1 = true :=
  C1_monotonic_confirmation (Debouncer.new 3 (0 : Nat)) 0 1 3 1
    rfl (by decide) (by decide) (by decide)

/-- C2 (counterexample): threshold `3`, settled at `0`; feed `1`, then
`0`, then `3 - 1 = 2` further `1` samples.  The last of these calls
returns `none`, not the claimed `Edge.new 0 1`: the interleaved readback
of `0` took the first branch, which wrote `next_state := 0` and so
discarded the streak toward `1`. -/
theorem C2_counterexample :
    (update (runUpdates (Debouncer.new 3 (0 : Nat)) [1, 0, 1]) 1).2 ≠
      some (Edge.new 0 1) := by
  decide

/-- C2 (amended): settled at `A` with threshold `H ≥ 2`, the calls
`update B`, `update A` both return `none`, but the readback of `A` sets
`next_state` back to `A` and so erases the progress toward `B`; the
`H - 1` further `update B` calls (call number `k + 1` for `k < H - 1`)
all return `none`, and only one more `update B` call — the `H`-th `B`
sample after the readback — returns `Edge.new A B`. -/
theorem C2_readback_resets (d : Debouncer T) (A B : T) (H r k : Nat)
    (hd : d = { current_state := A, next_state := A,
                repetition_count := r, threshold := H })
    (hH : 2 ≤ H) (hne : B ≠ A) (hk : k < H - 1) :
    (update d B).2 = none ∧
    (update (update d B).1 A).2 = none ∧
    ((update (update d B).1 A).1).next_state = A ∧
    (update (feed ((update (update d B).1 A).1) B k) B).2 = none ∧
    (update (feed ((update (update d B).1 A).1) B (H - 1)) B).2 =
      some (Edge.new A B) := by
  subst hd
  have hab : A ≠ B := fun e => hne e.symm
  rw [update_case2 A A B r H hab hab]
  simp only
  rw [update_case1 A B 1 H]
  simp only
  refine ⟨trivial, trivial, trivial, ?_, ?_⟩
  · match k, hk with
    | 0, _ =>
      simp only [feed]
      rw [update_case2 A A B 1 H hab hab]
    | j + 1, hk =>
      rw [feed_from_settled A B 1 H hab (j + 1) (by omega) (by omega)]
      rw [update_case3 A B (j + 1) H hab (by omega)]
  · rw [feed_from_settled A B 1 H hab (H - 1) (by omega) (by omega)]
    rw [update_case4 A B (H - 1) H hab (by omega)]

/-- C2 (witness). -/
theorem C2_witness :
    (update (Debouncer.new 3 (0 : Nat)) 1).2 = none ∧
    (update (update (Debouncer.new 3 (0 : Nat)) 1).1 0).2 = none ∧
    ((update (update (Debouncer.new 3 (0 : Nat)) 1).1 0).1).next_state = 0 ∧
    (update (feed ((update (update (Debouncer.new 3 (0 : Nat)) 1).1 0).1) 1 1) 1).2 = none ∧
    (update (feed ((update (update (Debouncer.new 3 (0 : Nat)) 1).1 0).1) 1 (3 - 1)) 1).2 =
      some (Edge.new 0 1) :=
  C2_readback_resets (Debouncer.new 3 (0 : Nat)) 0 1 3 3 1
    rfl (by decide) (by decide) (by decide)

/-- C7 (counterexample): with threshold `0`, a machine settled at `0` fed
the divergent sample `1` returns `none` on that first call (the second
branch has priority over the threshold comparison), not the claimed
edge. -/
theorem C7_counterexample :
    (update (Debouncer.new 0 (0 : Nat)) 1).2 ≠ some (Edge.new 0 1) := by
  decide

/-- C7 (amended): with threshold `0` and a machine settled at `A`, the
first divergent sample `B ≠ A` returns `none` (it takes the second
branch, starting a streak at count `1`); the comparison
`R + 1 ≥ H` then holds immediately, so the second consecutive `update B`
call already returns `Edge.new A B` — confirmation after two divergent
observations, not one. -/
theorem C7_threshold_zero (A B : T) (hne : B ≠ A) :
    (update (Debouncer.new 0 A) B).2 = none ∧
    update ((update (Debouncer.new 0 A) B).1) B =
      ({ current_state := B, next_state := B,
         repetition_count := 0, threshold := 0 }, some (Edge.new A B)) := by
  have hab : A ≠ B := fun e => hne e.symm
  have h1 : update (Debouncer.new 0 A) B =
      ({ current_state := A, next_state := B,
         repetition_count := 1, threshold := 0 }, none) := by
    show update { current_state := A, next_state := A,
                  repetition_count := 0, threshold := 0 } B = _
    exact update_case2 A A B 0 0 hab hab
  rw [h1]
  exact ⟨rfl, update_case4 A B 1 0 hab (by omega)⟩

/-- C3: whenever `update s` returns `some` edge, the machine afterwards
has `current_state = next_state = s` with the counter pinned at the
(unchanged) threshold; and a machine settled on `v` (`is_state v` true)
is left entirely unchanged by any number of further `update v` calls,
each of which returns `none` and keeps `is_state v` true. -/
theorem C3_post_edge_settled (d : Debouncer T) (s : T) (e : Edge T)
    (d2 : Debouncer T) (v : T) (n : Nat)
    (h1 : (update d s).2 = some e) (h2 : is_state d2 v = true) :
    ((update d s).1.current_state = s ∧ (update d s).1.next_state = s ∧
     (update d s).1.repetition_count = d.threshold ∧
     (update d s).1.threshold = d.threshold) ∧
    (feed d2 v n = d2 ∧ (update (feed d2 v n) v).2 = none ∧
     is_state (feed d2 v n) v = true) := by
  obtain ⟨-, -, -, heq⟩ := update_eq_some d s e h1
  constructor
  · rw [heq]
    exact ⟨rfl, rfl, rfl, rfl⟩
  · rw [feed_settled_fix d2 v h2 n]
    rw [update_settled_fix d2 v h2]
    exact ⟨rfl, rfl, h2⟩

/-- C3 (witness). -/
theorem C3_witness :
    ((update { current_state := 0, next_state := 1,
               repetition_count := 1, threshold := 2 : Debouncer Nat } 1).1.current_state = 1 ∧
     (update { current_state := 0, next_state := 1,
               repetition_count := 1, threshold := 2 : Debouncer Nat } 1).1.next_state = 1 ∧
     (update { current_state := 0, next_state := 1,
               repetition_count := 1, threshold := 2 : Debouncer Nat } 1).1.repetition_count =
       ({ current_state := 0, next_state := 1,
          repetition_count := 1, threshold := 2 : Debouncer Nat }).threshold ∧
     (update { current_state := 0, next_state := 1,
               repetition_count := 1, threshold := 2 : Debouncer Nat } 1).1.threshold =
       ({ current_state := 0, next_state := 1,
          repetition_count := 1, threshold := 2 : Debouncer Nat }).threshold) ∧
    (feed (Debouncer.new 2 (5 : Nat)) 5 3 = Debouncer.new 2 (5 : Nat) ∧
     (update (feed (Debouncer.new 2 (5 : Nat)) 5 3) 5).2 = none ∧
     is_state (feed (Debouncer.new 2 (5 : Nat)) 5 3) 5 = true) :=
  C3_post_edge_settled
    { current_state := 0, next_state := 1, repetition_count := 1, threshold := 2 }
    1 (Edge.new 0 1) (Debouncer.new 2 (5 : Nat)) 5 3 (by decide) (by decide)

/-- C4: settled at `A` with threshold `H`, after `k` samples of `B`
(`1 ≤ k < H`, each returning `none` — shown for call `j + 1`, `j < k`),
a single sample of a third value `C` returns `none`, discards the streak
toward `B` (the machine then tracks `C` with counter `1` and stable value
still `A`), leaves `is_state` false for `A`, `B` and `C`, and confirming
`C` takes a fresh run of `H` consecutive `C` samples counting that first
one: the following `C` calls return `none` (shown for call `j2 + 1`,
`j2 < H - 2`) until the `(H - 1)`-th further `C` sample returns
`Edge.new A C`. -/
theorem C4_outlier_resets (d : Debouncer T) (A B C : T) (H k j j2 : Nat)
    (hd : d = { current_state := A, next_state := A,
                repetition_count := H, threshold := H })
    (hH : 1 ≤ H) (hab : A ≠ B) (hac : A ≠ C) (hbc : B ≠ C)
    (hk1 : 1 ≤ k) (hkH : k < H) (hj : j < k) (hj2 : j2 < H - 2) :
    (update (feed d B j) B).2 = none ∧
    update (feed d B k) C =
      ({ current_state := A, next_state := C,
         repetition_count := 1, threshold := H }, none) ∧
    is_state (update (feed d B k) C).1 A = false ∧
    is_state (update (feed d B k) C).1 B = false ∧
    is_state (update (feed d B k) C).1 C = false ∧
    (update (feed (update (feed d B k) C).1 C j2) C).2 = none ∧
    (update (feed (update (feed d B k) C).1 C (H - 2)) C).2 =
      some (Edge.new A C) := by
  subst hd
  have houtlier :
      update (feed { current_state := A, next_state := A,
                     repetition_count := H, threshold := H } B k) C =
        ({ current_state := A, next_state := C,
           repetition_count := 1, threshold := H }, none) := by
    rw [feed_from_settled A B H H hab k hk1 hkH]
    exact update_case2 A B C k H hac hbc
  refine ⟨?_, houtlier, ?_, ?_, ?_, ?_, ?_⟩
  · match j, hj with
    | 0, _ =>
      simp only [feed]
      rw [update_case2 A A B H H hab hab]
    | i + 1, hj =>
      rw [feed_from_settled A B H H hab (i + 1) (by omega) (by omega)]
      rw [update_case3 A B (i + 1) H hab (by omega)]
  · rw [houtlier]
    simp [is_state, hac]
  · rw [houtlier]
    simp [is_state, hac]
  · rw [houtlier]
    simp [is_state, hac]
  · rw [houtlier]
    simp only
    rw [feed_streak A C 1 H hac j2 (by omega)]
    rw [update_case3 A C (1 + j2) H hac (by omega)]
  · rw [houtlier]
    simp only
    rw [feed_streak A C 1 H hac (H - 2) (by omega)]
    rw [update_case4 A C (1 + (H - 2)) H hac (by omega)]

/-- C4 (witness). -/
theorem C4_witness :
    (update (feed (Debouncer.new 3 (0 : Nat)) 1 1) 1).2 = none ∧
    update (feed (Debouncer.new 3 (0 : Nat)) 1 2) 2 =
      ({ current_state := 0, next_state := 2,
         repetition_count := 1, threshold := 3 }, none) ∧
    is_state (update (feed (Debouncer.new 3 (0 : Nat)) 1 2) 2).1 0 = false ∧
    is_state (update (feed (Debouncer.new 3 (0 : Nat)) 1 2) 2).1 1 = false ∧
    is_state (update (feed (Debouncer.new 3 (0 : Nat)) 1 2) 2).1 2 = false ∧
    (update (feed (update (feed (Debouncer.new 3 (0 : Nat)) 1 2) 2).1 2 0) 2).2 = none ∧
    (update (feed (update (feed (Debouncer.new 3 (0 : Nat)) 1 2) 2).1 2 (3 - 2)) 2).2 =
      some (Edge.new 0 2) :=
  C4_outlier_resets (Debouncer.new 3 (0 : Nat)) 0 1 2 3 2 1 0
    rfl (by decide) (by decide) (by decide) (by decide) (by decide) (by decide)
    (by decide) (by decide)

/-- C5: `is_state v` holds exactly when the machine is settled on `v`
(`current_state = next_state` and `current_state = v`); in particular an
unsettled machine reports `false` both for its stable value and for its
tracked candidate. -/
theorem C5_is_state_iff (d : Debouncer T) (v : T) (e : Debouncer T)
    (hne : e.current_state ≠ e.next_state) :
    (is_state d v = true ↔
      (d.current_state = d.next_state ∧ d.current_state = v)) ∧
    is_state e e.current_state = false ∧
    is_state e e.next_state = false := by
  refine ⟨?_, ?_, ?_⟩
  · simp [is_state]
  · simp [is_state, hne]
  · simp [is_state, hne]

/-- C5 (witness). -/
theorem C5_witness :
    (is_state (Debouncer.new 4 (7 : Nat)) 7 = true ↔
      ((Debouncer.new 4 (7 : Nat)).current_state = (Debouncer.new 4 (7 : Nat)).next_state ∧
       (Debouncer.new 4 (7 : Nat)).current_state = 7)) ∧
    is_state { current_state := 0, next_state := 1,
               repetition_count := 1, threshold := 3 : Debouncer Nat }
      ({ current_state := 0, next_state := 1,
         repetition_count := 1, threshold := 3 : Debouncer Nat }).current_state = false ∧
    is_state { current_state := 0, next_state := 1,
               repetition_count := 1, threshold := 3 : Debouncer Nat }
      ({ current_state := 0, next_state := 1,
         repetition_count := 1, threshold := 3 : Debouncer Nat }).next_state = false :=
  C5_is_state_iff (Debouncer.new 4 (7 : Nat)) 7
    { current_state := 0, next_state := 1, repetition_count := 1, threshold := 3 }
    (by decide)

/-- C6 (counterexample): with threshold `0`, a single divergent sample
takes the second branch and writes `1` into the counter, violating
`repetition_count ≤ threshold`. -/
theorem C6_counterexample :
    ¬ ((update (Debouncer.new 0 (0 : Nat)) 1).1.repetition_count ≤
       (update (Debouncer.new 0 (0 : Nat)) 1).1.threshold) := by
  decide

/-- C6 (amended to positive thresholds): for every machine built by
`new H s0` with `H ≥ 1` and every finite sequence of samples,
`repetition_count ≤ threshold` holds after construction (`l = []`) and
after every `update` call. -/
theorem C6_counter_cap (s0 : T) (H : Nat) (hH : 1 ≤ H) (l : List T) :
    (runUpdates (Debouncer.new H s0) l).repetition_count ≤
      (runUpdates (Debouncer.new H s0) l).threshold :=
  runUpdates_cap l (Debouncer.new H s0) hH (Nat.le_refl H)

/-- C6 (witness). -/
theorem C6_witness :
    (runUpdates (Debouncer.new 2 (0 : Nat)) [1, 1, 0, 1]).repetition_count ≤
      (runUpdates (Debouncer.new 2 (0 : Nat)) [1, 1, 0, 1]).threshold :=
  C6_counter_cap 0 2 (by decide) [1, 1, 0, 1]

/-- C7 (witness). -/
theorem C7_witness :
    (update (Debouncer.new 0 (0 : Nat)) 1).2 = none ∧
    update ((update (Debouncer.new 0 (0 : Nat)) 1).1) 1 =
      ({ current_state := 1, next_state := 1,
         repetition_count := 0, threshold := 0 }, some (Edge.new 0 1)) :=
  C7_threshold_zero 0 1 (by decide)

/-- C8: whenever `update s` emits an edge, its `from_` field is the
stable value held immediately before the call, its `to_` field is the
sample `s` itself, and the two differ — no self-loop edge is ever
produced. -/
theorem C8_edge_content (d : Debouncer T) (s : T) (e : Edge T)
    (h : (update d s).2 = some e) :
    e.from_ = d.current_state ∧ e.to_ = s ∧ e.from_ ≠ e.to_ := by
  obtain ⟨hne, hnext, -, heq⟩ := update_eq_some d s e h
  rw [heq] at h
  have h2 : some (Edge.new d.current_state d.next_state) = some e := h
  have he : e = Edge.new d.current_state d.next_state := (Option.some.inj h2).symm
  subst he
  exact ⟨rfl, hnext, fun hc => hne (hc.trans hnext)⟩

/-- C8 (witness). -/
theorem C8_witness :
    (Edge.new (0 : Nat) 1).from_ =
      ({ current_state := 0, next_state := 1,
         repetition_count := 1, threshold := 2 : Debouncer Nat }).current_state ∧
    (Edge.new (0 : Nat) 1).to_ = 1 ∧
    (Edge.new (0 : Nat) 1).from_ ≠ (Edge.new (0 : Nat) 1).to_ :=
  C8_edge_content
    { current_state := 0, next_state := 1, repetition_count := 1, threshold := 2 }
    1 (Edge.new 0 1) (by decide)

/-- Guard of the first `update` branch (src/debouncer.rs line 38). -/
def branchCond1 (d : Debouncer T) (state : T) : Prop :=
  d.current_state = state

/-- Guard of the second `update` branch (src/debouncer.rs line 44). -/
def branchCond2 (d : Debouncer T) (state : T) : Prop :=
  d.current_state ≠ state ∧ d.next_state ≠ state

/-- Guard of the third `update` branch (src/debouncer.rs lines 50-53). -/
def branchCond3 (d : Debouncer T) (state : T) : Prop :=
  d.current_state ≠ state ∧ d.next_state = state ∧
    d.repetition_count + 1 < d.threshold

/-- Guard of the fourth `update` branch (src/debouncer.rs lines 59-62). -/
def branchCond4 (d : Debouncer T) (state : T) : Prop :=
  d.current_state ≠ state ∧ d.next_state = state ∧
    d.repetition_count + 1 ≥ d.threshold

/-- C9: for every machine state and sample (over the total order of the
`Nat`-embedded counter), exactly one of the four decision-table guards of
`update` holds — they cover all cases and are pairwise exclusive — and in
particular the fallback `else` arm, whose path condition is the negation
of all four guards, can never be reached. -/
theorem C9_branch_exhaustive (d : Debouncer T) (s : T) :
    (branchCond1 d s ∨ branchCond2 d s ∨ branchCond3 d s ∨ branchCond4 d s) ∧
    ¬ (branchCond1 d s ∧ branchCond2 d s) ∧
    ¬ (branchCond1 d s ∧ branchCond3 d s) ∧
    ¬ (branchCond1 d s ∧ branchCond4 d s) ∧
    ¬ (branchCond2 d s ∧ branchCond3 d s) ∧
    ¬ (branchCond2 d s ∧ branchCond4 d s) ∧
    ¬ (branchCond3 d s ∧ branchCond4 d s) ∧
    ¬ (¬ branchCond1 d s ∧ ¬ branchCond2 d s ∧
       ¬ branchCond3 d s ∧ ¬ branchCond4 d s) := by
  by_cases h1 : d.current_state = s <;>
    by_cases h2 : d.next_state = s <;>
    by_cases h3 : d.repetition_count + 1 < d.threshold <;>
    simp_all [branchCond1, branchCond2, branchCond3, branchCond4]

/-- C9 (witness). -/
theorem C9_witness :
    (branchCond1 { current_state := 0, next_state := 1,
                   repetition_count := 1, threshold := 3 : Debouncer Nat } 1 ∨
     branchCond2 { current_state := 0, next_state := 1,
                   repetition_count := 1, threshold := 3 : Debouncer Nat } 1 ∨
     branchCond3 { current_state := 0, next_state := 1,
                   repetition_count := 1, threshold := 3 : Debouncer Nat } 1 ∨
     branchCond4 { current_state := 0, next_state := 1,
                   repetition_count := 1, threshold := 3 : Debouncer Nat } 1) ∧
    ¬ (branchCond1 { current_state := 0, next_state := 1,
                     repetition_count := 1, threshold := 3 : Debouncer Nat } 1 ∧
       branchCond2 { current_state := 0, next_state := 1,
                     repetition_count := 1, threshold := 3 : Debouncer Nat } 1) ∧
    ¬ (branchCond1 { current_state := 0, next_state := 1,
                     repetition_count := 1, threshold := 3 : Debouncer Nat } 1 ∧
       branchCond3 { current_state := 0, next_state := 1,
                     repetition_count := 1, threshold := 3 : Debouncer Nat } 1) ∧
    ¬ (branchCond1 { current_state := 0, next_state := 1,
                     repetition_count := 1, threshold := 3 : Debouncer Nat } 1 ∧
       branchCond4 { current_state := 0, next_state := 1,
                     repetition_count := 1, threshold := 3 : Debouncer Nat } 1) ∧
    ¬ (branchCond2 { current_state := 0, next_state := 1,
                     repetition_count := 1, threshold := 3 : Debouncer Nat } 1 ∧
       branchCond3 { current_state := 0, next_state := 1,
                     repetition_count := 1, threshold := 3 : Debouncer Nat } 1) ∧
    ¬ (branchCond2 { current_state := 0, next_state := 1,
                     repetition_count := 1, threshold := 3 : Debouncer Nat } 1 ∧
       branchCond4 { current_state := 0, next_state := 1,
                     repetition_count := 1, threshold := 3 : Debouncer Nat } 1) ∧
    ¬ (branchCond3 { current_state := 0, next_state := 1,
                     repetition_count := 1, threshold := 3 : Debouncer Nat } 1 ∧
       branchCond4 { current_state := 0, next_state := 1,
                     repetition_count := 1, threshold := 3 : Debouncer Nat } 1) ∧
    ¬ (¬ branchCond1 { current_state := 0, next_state := 1,
                       repetition_count := 1, threshold := 3 : Debouncer Nat } 1 ∧
       ¬ branchCond2 { current_state := 0, next_state := 1,
                       repetition_count := 1, threshold := 3 : Debouncer Nat } 1 ∧
       ¬ branchCond3 { current_state := 0, next_state := 1,
                       repetition_count := 1, threshold := 3 : Debouncer Nat } 1 ∧
       ¬ branchCond4 { current_state := 0, next_state := 1,
                       repetition_count := 1, threshold := 3 : Debouncer Nat } 1) :=
  C9_branch_exhaustive
    { current_state := 0, next_state := 1, repetition_count := 1, threshold := 3 } 1

end Derico
